import Mathlib

/-!
Verification of the request-time authorization subsystem of this repository.

The repository carries several iterations of the same edge middleware:

* `src/middleware.ts` holds two variants: one that queries the durable store
  directly per request (modelled in namespace `MW1`), and one that proxies the
  check through the internal `/api/auth/status` endpoint
  (`checkUserAuthorization`, modelled in namespace `MW2`).
* `src/app/api/detail/route.ts` holds the detail API endpoint (namespace
  `DetailAPI`) plus an embedded middleware variant with a 15-second in-memory
  ban cache (namespace `DetailMW`).
* `src/unnamed/part_000` holds a fail-closed middleware variant that rebuilds
  the banned set from `/api/server-config` on every request (namespace
  `Part0MW`).
* `src/app/api/auth/status/route.ts` holds the per-user status endpoint
  (namespace `StatusRoute`) and the `/api/server-config` payload sanitizer
  (`sanitizeUsers`, namespace `ServerConfig`).

All definitions are shallow embeddings of the TypeScript source: JavaScript
truthiness, strict equality, nullish coalescing, and the lenient numeric
parsing of `parseInt` are modelled explicitly where the source relies on them.
External effects (the durable store, HTTP fetches, the system clock, and the
outcome of WebCrypto signature verification inside the middleware state
machines) are passed in as explicit parameters, so every function is a pure,
executable model of one request-handling pass.
-/

namespace Baotuo

/-- JavaScript truthiness of an optional string value: `undefined`/`null` and
the empty string are falsy, every other string is truthy. -/
def truthyStr : Option String → Bool
  | none => false
  | some s => s ≠ ""

/-- A JSON-ish primitive value, used for the variously-encoded ban flags that
the directory responses may carry (`banned` / `disabled` / `status` fields). -/
inductive JVal where
  | jbool (b : Bool)
  | jnum (n : Int)
  | jstr (s : String)
  deriving DecidableEq, Repr, BEq

/-- JavaScript nullish coalescing `a ?? b` on optional JSON values
(`none` models both `undefined` and `null`). -/
def nullish : Option JVal → Option JVal → Option JVal
  | some v, _ => some v
  | none, b => b

/-- One raw user entry as it may appear in a directory / config response,
with all the field-name variants the source code tolerates
(`username`/`name`/`userName`, `banned`/`disabled`/`status`, `role`/`userRole`). -/
structure RawUser where
  username : Option String
  name : Option String
  userName : Option String
  role : Option String
  userRole : Option String
  banned : Option JVal
  disabled : Option JVal
  status : Option JVal
  deriving DecidableEq, Repr

/-- Resolution of the user-name field variants,
`u?.username ?? u?.name ?? u?.userName` in the source. -/
def rawName (u : RawUser) : Option String :=
  match u.username with
  | some s => some s
  | none =>
    match u.name with
    | some s => some s
    | none => u.userName

/-- JavaScript `StrWhiteSpaceChar` (the ASCII portion): the characters the
string functions modelled here treat as whitespace. -/
def isJsSpace (c : Char) : Bool :=
  c == ' ' || c == '\t' || c == '\n' || c == '\r' ||
  c.toNat == 11 || c.toNat == 12

/-- ASCII lower-casing of one character (the model of `toLowerCase`). -/
def lowerChar (c : Char) : Char :=
  if 65 ≤ c.toNat && c.toNat ≤ 90 then Char.ofNat (c.toNat + 32) else c

/-- ASCII model of JavaScript `String.prototype.toLowerCase`. -/
def jsToLower (s : String) : String := String.mk (s.data.map lowerChar)

/-- ASCII model of JavaScript `String.prototype.trim`. -/
def jsTrim (s : String) : String :=
  String.mk (((s.data.dropWhile isJsSpace).reverse.dropWhile isJsSpace).reverse)

/-- The ban-flag coercion shared verbatim by `sanitizeUsers`
(src/app/api/auth/status/route.ts) and `getBannedSet` (src/unnamed/part_000):
`raw === true || raw === 1 || raw === '1' ||
 (typeof raw === 'string' && ['true','banned','disabled'].includes(raw.toLowerCase()))`. -/
def coerceBanned (raw : Option JVal) : Bool :=
  raw == some (.jbool true) || raw == some (.jnum 1) || raw == some (.jstr "1") ||
  (match raw with
   | some (.jstr s) => ["true", "banned", "disabled"].contains (jsToLower s)
   | _ => false)

/-- The case/whitespace normalizer of src/unnamed/part_000:
`LOWER = (s) => (s ?? '').trim().toLowerCase()`. -/
def LOWER : Option String → String
  | none => jsToLower (jsTrim "")
  | some s => jsToLower (jsTrim s)

/-- A config/directory JSON document, keeping the three places a user list may
live (`data?.UserConfig?.Users`, `data?.Users`, `data?.users`). -/
structure ConfigData where
  userConfigUsers : Option (List RawUser)
  usersUpper : Option (List RawUser)
  usersLower : Option (List RawUser)
  deriving DecidableEq, Repr

/-- User-list extraction
`data?.UserConfig?.Users || data?.Users || data?.users || []` — an array field,
even an empty one, is truthy in JavaScript, so the first present field wins. -/
def dataUsers (d : ConfigData) : List RawUser :=
  match d.userConfigUsers with
  | some us => us
  | none =>
    match d.usersUpper with
    | some us => us
    | none =>
      match d.usersLower with
      | some us => us
      | none => []

/-- Outcome of one `fetch` of the directory endpoint: a network-level throw, or
an HTTP response with its `ok` flag and the result of `res.json()`
(which itself may throw on a malformed body). -/
inductive FetchOutcome where
  | netErr
  | resp (ok : Bool) (json : Except Unit ConfigData)

/-- A user entry as stored in the admin config consumed through the durable
store (`AdminConfig.UserConfig.Users`): a username plus a boolean ban flag. -/
structure AdminUser where
  username : String
  banned : Bool
  deriving DecidableEq, Repr

/-- The per-user ban lookup shared (textually near-identically) by the first
middleware.ts variant, the status route and the detail endpoint:
`Users.find(x => x.username === name)` followed by the truthiness test of the
found entry's `banned` flag; a missing config or user list means not banned. -/
def bannedIn (cfgUsers : Option (List AdminUser)) (uname : String) : Bool :=
  match cfgUsers with
  | some users =>
    match users.find? (fun x => x.username == uname) with
    | some u => u.banned
    | none => false
  | none => false

/-- The auth cookie's decoded payload (`getAuthInfoFromCookie`): an optional
username, password and signature. -/
structure AuthInfo where
  username : Option String
  password : Option String
  signature : Option String
  deriving DecidableEq, Repr

/-- The request features the middlewares inspect: `pathname` and the query
string `search`. -/
structure Request where
  pathname : String
  search : String
  deriving DecidableEq, Repr

/-- The environment variables the middlewares read: `PASSWORD` and
`NEXT_PUBLIC_STORAGE_TYPE`. -/
structure Env where
  password : Option String
  storageType : Option String
  deriving DecidableEq, Repr

/-- Storage-type resolution
`process.env.NEXT_PUBLIC_STORAGE_TYPE || 'localstorage'` (empty string is
falsy, hence also defaults). -/
def resolveStorageType (e : Env) : String :=
  match e.storageType with
  | some s => if s = "" then "localstorage" else s
  | none => "localstorage"

/-- A middleware response: pass-through (`NextResponse.next()`), a redirect
with its query parameters, or a plain API status response. `cookieCleared`
records whether the response carries instructions to delete the auth cookie. -/
inductive MWResponse where
  | next
  | redirect (dest : String) (params : List (String × String)) (cookieCleared : Bool)
  | apiResp (status : Nat) (body : String) (cookieCleared : Bool)
  deriving DecidableEq, Repr

/-- A middleware pass outcome: the response together with how many
directory/store consultations (DB calls or internal fetches) it performed. -/
structure MWOut where
  res : MWResponse
  dirLookups : Nat
  deriving DecidableEq, Repr

/-- Occurrence of a character pattern anywhere inside a list, used to model
JavaScript `String.prototype.includes`. -/
def occursIn (pat : List Char) : List Char → Bool
  | [] => pat.isPrefixOf ([] : List Char)
  | b :: bs => pat.isPrefixOf (b :: bs) || occursIn pat bs

/-- Substring test, JavaScript `String.prototype.includes`. -/
def jsIncludes (s sub : String) : Bool :=
  occursIn sub.data s.data

/-- Prefix test, JavaScript `String.prototype.startsWith` (modelled on the
character lists, so that it evaluates by reduction). -/
def jsStartsWith (s pre : String) : Bool :=
  pre.data.isPrefixOf s.data

namespace ServerConfig

/-- A sanitized user entry as emitted by the `/api/server-config` route:
exactly the three fields `username`, `role`, `banned`. -/
structure SUser where
  username : String
  role : Option String
  banned : Bool
  deriving DecidableEq, Repr

/-- Shallow embedding of `sanitizeUsers`
(src/app/api/auth/status/route.ts, second document): resolves the user-name
aliases, trims the name, resolves `banned ?? disabled ?? status ?? false`,
coerces it to a boolean, and drops entries with an empty username.
A non-array input is replaced by `[]`, modelled by the `Option`. -/
def sanitizeUsers (input : Option (List RawUser)) : List SUser :=
  let arr := input.getD []
  (arr.map (fun u =>
    { username := jsTrim ((rawName u).getD ""),
      role := match u.role with
              | some r => some r
              | none => u.userRole,
      banned := coerceBanned (nullish u.banned (nullish u.disabled
                  (nullish u.status (some (.jbool false))))) })).filter
    (fun u => u.username ≠ "")

end ServerConfig

namespace Part0MW

/-- Route exemption list of the part_000 middleware (`shouldSkip`). -/
def shouldSkip (pathname : String) : Bool :=
  jsStartsWith pathname "/_next" ||
  jsStartsWith pathname "/favicon" ||
  pathname == "/robots.txt" ||
  jsStartsWith pathname "/manifest" ||
  jsStartsWith pathname "/icons" ||
  jsStartsWith pathname "/sitemap" ||
  jsStartsWith pathname "/login" ||
  jsStartsWith pathname "/warning" ||
  jsStartsWith pathname "/api/login" ||
  jsStartsWith pathname "/api/register" ||
  jsStartsWith pathname "/api/logout" ||
  jsStartsWith pathname "/api/cron" ||
  jsStartsWith pathname "/api/server-config"

/-- Set construction inside part_000's `getBannedSet`: for each user entry,
resolve the name aliases, lower-case and trim the name (`LOWER`), coerce the
ban flag, and insert the normalized name when both are non-trivial. The
JavaScript `Set` is modelled as a duplicate-tolerant list. -/
def buildBanSet (users : List RawUser) : List String :=
  users.foldl (fun acc u =>
    let nm := LOWER (rawName u)
    let banned := coerceBanned (nullish u.banned (nullish u.disabled u.status))
    if nm ≠ "" && banned then acc ++ [nm] else acc) []

/-- Shallow embedding of part_000's `getBannedSet`: always fetches
`/api/server-config` with a cache-buster (no local cache); a network error,
a non-ok status or a malformed JSON body all surface as a thrown error. -/
def getBannedSet (fetch : FetchOutcome) : Except Unit (List String) :=
  match fetch with
  | .netErr => .error ()
  | .resp ok json =>
    if !ok then .error ()
    else
      match json with
      | .error _ => .error ()
      | .ok data => .ok (buildBanSet (dataUsers data))

/-- Shallow embedding of part_000's `block`: API paths get a plain 403, pages
get a redirect to `/login`; both carry the auth-cookie deletion from
`clearAuth`. -/
def block (req : Request) (isApi : Bool) : MWResponse :=
  if isApi then .apiResp 403 "Forbidden" true
  else .redirect "/login" [] true

/-- Shallow embedding of the part_000 middleware (second document of
src/unnamed/part_000). `sigOk` is the outcome of `verifySignature` on the
credential (the verifier itself is modelled separately as
`Baotuo.verifySignature`); `fetch` is the outcome of the single
`/api/server-config` fetch a pass may perform. -/
def middleware (req : Request) (env : Env) (auth : Option AuthInfo)
    (sigOk : Bool) (fetch : FetchOutcome) : MWOut :=
  if shouldSkip req.pathname then ⟨.next, 0⟩
  else if !truthyStr env.password then ⟨.redirect "/warning" [] false, 0⟩
  else
    let storageType := resolveStorageType env
    let isApi := jsStartsWith req.pathname "/api"
    match auth with
    | none => ⟨block req isApi, 0⟩
    | some a =>
      if storageType = "localstorage" then
        if !(a.password == env.password) then ⟨block req isApi, 0⟩
        else if truthyStr a.username then
          match getBannedSet fetch with
          | .ok banned =>
            if banned.contains (LOWER a.username) then ⟨block req isApi, 1⟩
            else ⟨.next, 1⟩
          | .error _ => ⟨block req isApi, 1⟩
        else ⟨.next, 0⟩
      else
        if !truthyStr a.username || !truthyStr a.signature then ⟨block req isApi, 0⟩
        else if !sigOk then ⟨block req isApi, 0⟩
        else
          match getBannedSet fetch with
          | .ok banned =>
            if banned.contains (LOWER a.username) then ⟨block req isApi, 1⟩
            else ⟨.next, 1⟩
          | .error _ => ⟨block req isApi, 1⟩

end Part0MW

namespace DetailMW

/-- The soft-cache TTL of the detail-route embedded middleware: 15 seconds in
milliseconds. -/
def BAN_CACHE_TTL : Nat := 15000

/-- The module-level `banCache` cell: capture time (`at` in the source) plus
the captured ban set. -/
structure BanCache where
  capturedAt : Nat
  set : List String
  deriving DecidableEq, Repr

/-- Result of one `getBannedSet` call: the returned set or the thrown error,
the cache cell afterwards, and how many fetches the call issued. -/
structure BanLookup where
  result : Except Unit (List String)
  cacheAfter : Option BanCache
  fetches : Nat

/-- Set construction inside the detail-route `getBannedSet`: an entry is
banned only under `u?.banned === true || u?.disabled === true ||
u?.status === 'banned'`, and the raw (non-case-normalized) name is inserted. -/
def buildBanSet (users : List RawUser) : List String :=
  users.foldl (fun acc u =>
    let nm := rawName u
    let isBanned := u.banned == some (.jbool true) ||
      u.disabled == some (.jbool true) || u.status == some (.jstr "banned")
    if truthyStr nm && isBanned then acc ++ [nm.getD ""] else acc) []

/-- The refresh path of `getBannedSet` (cache absent or expired): one fetch of
`/api/server-config`; a network error, non-ok status or malformed body throws,
leaving the cache untouched; on success the cache is replaced with the new
set stamped at the current time. -/
def refreshBanSet (cache : Option BanCache) (now : Nat) (fetch : FetchOutcome) :
    BanLookup :=
  match fetch with
  | .netErr => ⟨.error (), cache, 1⟩
  | .resp ok json =>
    if !ok then ⟨.error (), cache, 1⟩
    else
      match json with
      | .error _ => ⟨.error (), cache, 1⟩
      | .ok data =>
        let s := buildBanSet (dataUsers data)
        ⟨.ok s, some ⟨now, s⟩, 1⟩

/-- Shallow embedding of the detail-route `getBannedSet`
(src/app/api/detail/route.ts, second document): serve the cached set without
fetching while `now - at < BAN_CACHE_TTL`, otherwise refresh. The two
`Date.now()` reads of one call are modelled as the single instant `now`. -/
def getBannedSet (cache : Option BanCache) (now : Nat) (fetch : FetchOutcome) :
    BanLookup :=
  match cache with
  | some c =>
    if now - c.capturedAt < BAN_CACHE_TTL then ⟨.ok c.set, some c, 0⟩
    else refreshBanSet (some c) now fetch
  | none => refreshBanSet none now fetch

/-- Shallow embedding of the detail-route `killAuthAndBlock`: 403 for API
paths, redirect to `/login` otherwise, both clearing the auth cookie. -/
def killAuthAndBlock (req : Request) (isApi : Bool) : MWResponse :=
  if isApi then .apiResp 403 "Forbidden" true
  else .redirect "/login" [] true

/-- Shallow embedding of the detail-route `handleAuthFailure`: a plain 401 for
API paths, otherwise a redirect to `/login` carrying the original URL; neither
branch touches the auth cookie. -/
def handleAuthFailure (req : Request) : MWResponse :=
  if jsStartsWith req.pathname "/api" then .apiResp 401 "Unauthorized" false
  else .redirect "/login" [("redirect", req.pathname ++ req.search)] false

/-- Route exemption list shared by both middleware.ts variants and the
detail-route embedded middleware (`shouldSkipAuth`). -/
def shouldSkipAuth (pathname : String) : Bool :=
  ["/_next", "/favicon.ico", "/robots.txt", "/manifest.json", "/icons/",
   "/logo.png", "/screenshot.png"].any (fun p => jsStartsWith pathname p)

/-- A detail-route middleware pass outcome: the response, the ban cache cell
after the pass, and the number of fetches performed. -/
structure DrOut where
  res : MWResponse
  cacheAfter : Option BanCache
  fetches : Nat

/-- Shallow embedding of the detail-route embedded middleware: after a valid
signature it consults `getBannedSet`; a caught lookup error falls through to
`NextResponse.next()` (the fail-closed line is commented out in the source). -/
def middleware (req : Request) (env : Env) (auth : Option AuthInfo)
    (sigOk : Bool) (cache : Option BanCache) (now : Nat) (fetch : FetchOutcome) :
    DrOut :=
  if shouldSkipAuth req.pathname then ⟨.next, cache, 0⟩
  else
    let storageType := resolveStorageType env
    if !truthyStr env.password then ⟨.redirect "/warning" [] false, cache, 0⟩
    else
      match auth with
      | none => ⟨handleAuthFailure req, cache, 0⟩
      | some a =>
        if storageType = "localstorage" then
          if !truthyStr a.password || !(a.password == some (env.password.getD "")) then
            ⟨handleAuthFailure req, cache, 0⟩
          else ⟨.next, cache, 0⟩
        else
          if !truthyStr a.username || !truthyStr a.signature then
            ⟨handleAuthFailure req, cache, 0⟩
          else if sigOk then
            let lk := getBannedSet cache now fetch
            match lk.result with
            | .ok s =>
              if s.contains (a.username.getD "") then
                ⟨killAuthAndBlock req (jsStartsWith req.pathname "/api"),
                 lk.cacheAfter, lk.fetches⟩
              else ⟨.next, lk.cacheAfter, lk.fetches⟩
            | .error _ => ⟨.next, lk.cacheAfter, lk.fetches⟩
          else ⟨handleAuthFailure req, cache, 0⟩

end DetailMW

namespace MW1

/-- The durable-store interface the direct-query middleware variant consults:
`db.isUserExist` and `db.getAdminConfig`, each able to throw. -/
structure Db where
  isUserExist : Except Unit Bool
  getAdminConfig : Except Unit (Option (List AdminUser))

/-- Shallow embedding of `handleAuthFailure` (first middleware.ts variant):
API paths get the reason string with status 403 when the reason mentions
`banned` or `forbidden` and 401 otherwise, with no cookie deletion; pages get
a `/login` redirect carrying an error hint and the original URL, with the auth
cookie deleted. -/
def handleAuthFailure (req : Request) (reason : String) : MWResponse :=
  if jsStartsWith req.pathname "/api" then
    .apiResp (if jsIncludes reason "banned" || jsIncludes reason "forbidden"
              then 403 else 401) reason false
  else
    .redirect "/login"
      ((if jsIncludes reason "banned" then [("error", "banned")]
        else if jsIncludes reason "deleted" then [("error", "deleted")]
        else []) ++ [("redirect", req.pathname ++ req.search)]) true

/-- Shallow embedding of the first middleware.ts variant: after the route and
config guards, the credential's username is required, then the durable store
is consulted (existence, then admin config for the ban flag) inside a
try/catch, and only afterwards the mode-specific password/signature check
runs. `sigOk` is the outcome of `verifySignature`. -/
def middleware (req : Request) (env : Env) (auth : Option AuthInfo)
    (db : Db) (sigOk : Bool) : MWOut :=
  if DetailMW.shouldSkipAuth req.pathname then ⟨.next, 0⟩
  else
    let storageType := resolveStorageType env
    if !truthyStr env.password then ⟨.redirect "/warning" [] false, 0⟩
    else
      match auth with
      | none => ⟨handleAuthFailure req "No valid auth info or username found", 0⟩
      | some a =>
        if !truthyStr a.username then
          ⟨handleAuthFailure req "No valid auth info or username found", 0⟩
        else
          match db.isUserExist with
          | .error _ => ⟨handleAuthFailure req "Server error during auth check", 1⟩
          | .ok userExists =>
            if !userExists then ⟨handleAuthFailure req "User is deleted", 1⟩
            else
              match db.getAdminConfig with
              | .error _ => ⟨handleAuthFailure req "Server error during auth check", 2⟩
              | .ok cfgUsers =>
                if bannedIn cfgUsers (a.username.getD "") then ⟨handleAuthFailure req "User is banned", 2⟩
                else if storageType = "localstorage" then
                  if !truthyStr a.password || !(a.password == some (env.password.getD "")) then
                    ⟨handleAuthFailure req "Local storage password mismatch", 2⟩
                  else ⟨.next, 2⟩
                else if !truthyStr a.signature then
                  ⟨handleAuthFailure req "Missing signature for non-localstorage mode", 2⟩
                else if sigOk then ⟨.next, 2⟩
                else ⟨handleAuthFailure req "Signature invalid or not found", 2⟩

end MW1

namespace MW2

/-- Shallow embedding of `checkUserAuthorization` (second middleware.ts
variant): one fetch of `/api/auth/status`; `response.ok` passes, 403/404 fail,
any other status fails, and a thrown fetch error fails. -/
def checkUserAuthorization (fetchStatus : Except Unit Nat) : Bool :=
  match fetchStatus with
  | .error _ => false
  | .ok status =>
    if 200 ≤ status && status < 300 then true
    else if status == 403 || status == 404 then false
    else false

/-- Shallow embedding of `handleAuthFailure` (second middleware.ts variant):
as in the first variant, but a reason mentioning `Authorization Failed` also
maps to 403 on API paths. -/
def handleAuthFailure (req : Request) (reason : String) : MWResponse :=
  if jsStartsWith req.pathname "/api" then
    .apiResp (if jsIncludes reason "banned" || jsIncludes reason "forbidden" ||
                 jsIncludes reason "Authorization Failed"
              then 403 else 401) reason false
  else
    .redirect "/login"
      ((if jsIncludes reason "banned" then [("error", "banned")]
        else if jsIncludes reason "deleted" then [("error", "deleted")]
        else []) ++ [("redirect", req.pathname ++ req.search)]) true

/-- Shallow embedding of the second middleware.ts variant: the authorization
fetch through `/api/auth/status` runs right after the credential check and
before the mode-specific password/signature verification. -/
def middleware (req : Request) (env : Env) (auth : Option AuthInfo)
    (fetchStatus : Except Unit Nat) (sigOk : Bool) : MWOut :=
  if DetailMW.shouldSkipAuth req.pathname then ⟨.next, 0⟩
  else
    let storageType := resolveStorageType env
    if !truthyStr env.password then ⟨.redirect "/warning" [] false, 0⟩
    else
      match auth with
      | none => ⟨handleAuthFailure req "No valid auth info or username found", 0⟩
      | some a =>
        if !truthyStr a.username then
          ⟨handleAuthFailure req "No valid auth info or username found", 0⟩
        else if !checkUserAuthorization fetchStatus then
          ⟨handleAuthFailure req "User is deleted or banned (Authorization Failed)", 1⟩
        else if storageType = "localstorage" then
          if !truthyStr a.password || !(a.password == some (env.password.getD "")) then
            ⟨handleAuthFailure req "Local storage password mismatch", 1⟩
          else ⟨.next, 1⟩
        else if !truthyStr a.signature then
          ⟨handleAuthFailure req "Missing signature for non-localstorage mode", 1⟩
        else if sigOk then ⟨.next, 1⟩
        else ⟨handleAuthFailure req "Signature invalid or not found", 1⟩

end MW2

namespace StatusRoute

/-- The storage interface the status route consults: `checkUserExist` and
`getAdminConfig`, each able to throw. -/
structure Db where
  checkUserExist : Except Unit Bool
  getAdminConfig : Except Unit (Option (List AdminUser))

/-- One response of the status route: HTTP status, JSON `message` body, the
`Cache-Control` header, and how many storage calls the pass performed. -/
structure StatusOut where
  status : Nat
  message : String
  cacheControl : String
  dbCalls : Nat
  deriving DecidableEq, Repr

/-- Shallow embedding of `GET` in src/app/api/auth/status/route.ts (first
document): every response carries `Cache-Control: no-store, max-age=0`; a
missing (or empty, hence falsy) `username` query parameter returns 400 before
any storage access; otherwise existence is checked (404 when absent), then the
admin config's ban flag (403 when banned), else 200; a thrown storage error
returns 500. -/
def GET (username : Option String) (db : Db) : StatusOut :=
  let hdr := "no-store, max-age=0"
  if !truthyStr username then ⟨400, "Missing username", hdr, 0⟩
  else
    match db.checkUserExist with
    | .error _ => ⟨500, "Internal Server Error", hdr, 1⟩
    | .ok userExists =>
      if !userExists then ⟨404, "User deleted", hdr, 1⟩
      else
        match db.getAdminConfig with
        | .error _ => ⟨500, "Internal Server Error", hdr, 2⟩
        | .ok cfgUsers =>
          if bannedIn cfgUsers (username.getD "") then ⟨403, "User banned", hdr, 2⟩
          else ⟨200, "User active", hdr, 2⟩

end StatusRoute

namespace DetailAPI

/-- Validity test for the video id, the regex `/^[\w-]+$/` of the source:
non-empty, and every character a word character or a dash. -/
def idValid (id : String) : Bool :=
  id ≠ "" && id.data.all (fun c => c.isAlphanum || c == '_' || c == '-')

/-- The cache headers attached to a successful detail response, with the
configured cache time interpolated into each value. -/
def cacheHeaders (cacheTime : Nat) : List (String × String) :=
  [("Cache-Control", "public, max-age=" ++ toString cacheTime ++
      ", s-maxage=" ++ toString cacheTime),
   ("CDN-Cache-Control", "public, s-maxage=" ++ toString cacheTime),
   ("Vercel-CDN-Cache-Control", "public, s-maxage=" ++ toString cacheTime)]

/-- One response of the detail endpoint: HTTP status plus response headers
(empty except on the cached success path). -/
structure DetailOut where
  status : Nat
  headers : List (String × String)
  deriving DecidableEq, Repr

/-- The parameter-and-downstream tail of the detail `GET` (steps 4 and 5 of
the source): parameter presence and id-format checks, api-site resolution,
then the downstream fetch, whose success attaches the public cache headers. -/
def detailTail (id source : Option String) (apiSiteKeys : List String)
    (fetchDetail : Except Unit Unit) (cacheTime : Nat) : DetailOut :=
  if !truthyStr id || !truthyStr source then ⟨400, []⟩
  else if !idValid (id.getD "") then ⟨400, []⟩
  else if !(apiSiteKeys.contains (source.getD "")) then ⟨400, []⟩
  else
    match fetchDetail with
    | .error _ => ⟨500, []⟩
    | .ok _ => ⟨200, cacheHeaders cacheTime⟩

/-- Shallow embedding of `GET` in src/app/api/detail/route.ts (first
document): credential presence, then the per-user ban check against
`cfg.UserConfig.Users`, then (for d1/redis/upstash storage) `db.verifyUser`,
then the parameter checks and the downstream fetch. `cacheTime` stands for
the value `getCacheTime()` returns (its implementation lives outside src/);
`apiSiteKeys` for the keys of `getAvailableApiSites()`. -/
def GET (auth : Option AuthInfo) (cfgUsers : Option (List AdminUser))
    (env : Env) (verifyUser : Except Unit Bool) (id source : Option String)
    (apiSiteKeys : List String) (fetchDetail : Except Unit Unit)
    (cacheTime : Nat) : DetailOut :=
  match auth with
  | none => ⟨401, []⟩
  | some a =>
    if !truthyStr a.username then ⟨401, []⟩
    else
      if bannedIn cfgUsers (a.username.getD "") then ⟨403, []⟩
      else
        let storageType := resolveStorageType env
        if storageType == "d1" || storageType == "redis" || storageType == "upstash" then
          match verifyUser with
          | .error _ => ⟨500, []⟩
          | .ok ok =>
            if !ok then ⟨401, []⟩
            else detailTail id source apiSiteKeys fetchDetail cacheTime
        else detailTail id source apiSiteKeys fetchDetail cacheTime

end DetailAPI

/-- Truncation to a 32-bit word. -/
def w32 (n : Nat) : Nat := n % 4294967296

/-- 32-bit modular addition. -/
def wadd (a b : Nat) : Nat := (a + b) % 4294967296

/-- 32-bit right rotation (argument assumed below 2^32). -/
def rotr (n x : Nat) : Nat := w32 ((x >>> n) ||| (x <<< (32 - n)))

/-- SHA-256 big sigma 0. -/
def bsig0 (x : Nat) : Nat := (rotr 2 x) ^^^ (rotr 13 x) ^^^ (rotr 22 x)

/-- SHA-256 big sigma 1. -/
def bsig1 (x : Nat) : Nat := (rotr 6 x) ^^^ (rotr 11 x) ^^^ (rotr 25 x)

/-- SHA-256 small sigma 0. -/
def ssig0 (x : Nat) : Nat := (rotr 7 x) ^^^ (rotr 18 x) ^^^ (x >>> 3)

/-- SHA-256 small sigma 1. -/
def ssig1 (x : Nat) : Nat := (rotr 17 x) ^^^ (rotr 19 x) ^^^ (x >>> 10)

/-- SHA-256 choice function (bitwise not modelled as xor with all-ones). -/
def chF (x y z : Nat) : Nat := (x &&& y) ^^^ ((x ^^^ 4294967295) &&& z)

/-- SHA-256 majority function. -/
def majF (x y z : Nat) : Nat := (x &&& y) ^^^ (x &&& z) ^^^ (y &&& z)

/-- The 64 SHA-256 round constants. -/
def K64 : List Nat :=
  [1116352408, 1899447441, 3049323471, 3921009573, 961987163,
   1508970993, 2453635748, 2870763221, 3624381080, 310598401,
   607225278, 1426881987, 1925078388, 2162078206, 2614888103,
   3248222580, 3835390401, 4022224774, 264347078, 604807628,
   770255983, 1249150122, 1555081692, 1996064986, 2554220882,
   2821834349, 2952996808, 3210313671, 3336571891, 3584528711,
   113926993, 338241895, 666307205, 773529912, 1294757372,
   1396182291, 1695183700, 1986661051, 2177026350, 2456956037,
   2730485921, 2820302411, 3259730800, 3345764771, 3516065817,
   3600352804, 4094571909, 275423344, 430227734, 506948616,
   659060556, 883997877, 958139571, 1322822218, 1537002063,
   1747873779, 1955562222, 2024104815, 2227730452, 2361852424,
   2428436474, 2756734187, 3204031479, 3329325298]

/-- The eight-word SHA-256 working state. -/
structure Hash8 where
  h0 : Nat
  h1 : Nat
  h2 : Nat
  h3 : Nat
  h4 : Nat
  h5 : Nat
  h6 : Nat
  h7 : Nat
  deriving DecidableEq, Repr

/-- The SHA-256 initial hash value. -/
def initH : Hash8 :=
  ⟨1779033703, 3144134277, 1013904242, 2773480762,
   1359893119, 2600822924, 528734635, 1541459225⟩

/-- One message-schedule extension step on the reversed schedule list. -/
def stepW (rw : List Nat) : List Nat :=
  wadd (wadd (ssig1 (rw.getD 1 0)) (rw.getD 6 0))
       (wadd (ssig0 (rw.getD 14 0)) (rw.getD 15 0)) :: rw

/-- Iterated message-schedule extension. -/
def extendW : Nat → List Nat → List Nat
  | 0, rw => rw
  | n + 1, rw => extendW n (stepW rw)

/-- The full 64-word message schedule from the 16 block words. -/
def schedule (ws : List Nat) : List Nat :=
  (extendW 48 ws.reverse).reverse

/-- One SHA-256 compression round. -/
def sha256round (st : Hash8) (k w : Nat) : Hash8 :=
  let t1 := wadd st.h7 (wadd (bsig1 st.h4) (wadd (chF st.h4 st.h5 st.h6) (wadd k w)))
  let t2 := wadd (bsig0 st.h0) (majF st.h0 st.h1 st.h2)
  ⟨wadd t1 t2, st.h0, st.h1, st.h2, wadd st.h3 t1, st.h4, st.h5, st.h6⟩

/-- Big-endian 4-byte grouping of a byte list into 32-bit words. -/
def bytesToWords : List Nat → List Nat
  | a :: b :: c :: d :: rest => (a * 16777216 + b * 65536 + c * 256 + d) :: bytesToWords rest
  | _ => []

/-- SHA-256 compression of one 64-byte block into the running state. -/
def compress (st : Hash8) (block : List Nat) : Hash8 :=
  let ws := schedule (bytesToWords block)
  let f := (K64.zip ws).foldl (fun s kw => sha256round s kw.1 kw.2) st
  ⟨wadd st.h0 f.h0, wadd st.h1 f.h1, wadd st.h2 f.h2, wadd st.h3 f.h3,
   wadd st.h4 f.h4, wadd st.h5 f.h5, wadd st.h6 f.h6, wadd st.h7 f.h7⟩

/-- Big-endian 8-byte encoding of a length value. -/
def wordToBytes8 (n : Nat) : List Nat :=
  [(n >>> 56) % 256, (n >>> 48) % 256, (n >>> 40) % 256, (n >>> 32) % 256,
   (n >>> 24) % 256, (n >>> 16) % 256, (n >>> 8) % 256, n % 256]

/-- Big-endian 4-byte encoding of a 32-bit word. -/
def wordToBytes4 (n : Nat) : List Nat :=
  [(n >>> 24) % 256, (n >>> 16) % 256, (n >>> 8) % 256, n % 256]

/-- SHA-256 padding: append 0x80, zero bytes to 56 mod 64, then the bit
length as 8 big-endian bytes. -/
def padMessage (msg : List Nat) : List Nat :=
  msg ++ [128] ++ List.replicate ((119 - msg.length % 64) % 64) 0 ++
    wordToBytes8 (8 * msg.length)

/-- Split a byte list into successive 64-byte blocks, fuelled by the block
count. -/
def chunks64 : Nat → List Nat → List (List Nat)
  | 0, _ => []
  | n + 1, bs => bs.take 64 :: chunks64 n (bs.drop 64)

/-- The digest bytes of a final SHA-256 state. -/
def digestBytes (st : Hash8) : List Nat :=
  wordToBytes4 st.h0 ++ wordToBytes4 st.h1 ++ wordToBytes4 st.h2 ++
  wordToBytes4 st.h3 ++ wordToBytes4 st.h4 ++ wordToBytes4 st.h5 ++
  wordToBytes4 st.h6 ++ wordToBytes4 st.h7

/-- SHA-256 of a byte list. -/
def sha256 (msg : List Nat) : List Nat :=
  let p := padMessage msg
  digestBytes ((chunks64 (p.length / 64) p).foldl compress initH)

/-- UTF-8 encoding of one character. -/
def utf8Char (c : Char) : List Nat :=
  let n := c.toNat
  if n < 128 then [n]
  else if n < 2048 then [192 ||| (n >>> 6), 128 ||| (n &&& 63)]
  else if n < 65536 then
    [224 ||| (n >>> 12), 128 ||| ((n >>> 6) &&& 63), 128 ||| (n &&& 63)]
  else
    [240 ||| (n >>> 18), 128 ||| ((n >>> 12) &&& 63),
     128 ||| ((n >>> 6) &&& 63), 128 ||| (n &&& 63)]

/-- UTF-8 encoding of a string, the model of `TextEncoder().encode`. -/
def utf8 (s : String) : List Nat :=
  (s.data.map utf8Char).flatten

/-- HMAC-SHA-256 over byte lists. -/
def hmacSha256 (key msg : List Nat) : List Nat :=
  let k0 := if key.length > 64 then sha256 key else key
  let k1 := k0 ++ List.replicate (64 - k0.length) 0
  sha256 ((k1.map (fun b => b ^^^ 92)) ++ sha256 ((k1.map (fun b => b ^^^ 54)) ++ msg))


/-- Whether a character is matched by `.` in a JavaScript regex without the
dotall flag: everything except the four line terminators. -/
def isJsDot (c : Char) : Bool :=
  c ≠ '\n' && c ≠ '\r' && c.toNat ≠ 8232 && c.toNat ≠ 8233

/-- The chunking performed by `signature.match(/.{1,2}/g)`: greedy pairs of
non-line-terminator characters, line terminators skipped between matches. -/
def hexChunks : List Char → List (List Char)
  | [] => []
  | [c] => if isJsDot c then [[c]] else []
  | c :: c2 :: rest =>
    if isJsDot c then
      if isJsDot c2 then [c, c2] :: hexChunks rest
      else [c] :: hexChunks rest
    else hexChunks (c2 :: rest)

/-- Hexadecimal digit value. -/
def hexDigitVal (c : Char) : Option Nat :=
  if '0' ≤ c && c ≤ '9' then some (c.toNat - 48)
  else if 'a' ≤ c && c ≤ 'f' then some (c.toNat - 87)
  else if 'A' ≤ c && c ≤ 'F' then some (c.toNat - 55)
  else none

/-- Strip an optional `0x`/`0X` prefix, as radix-16 `parseInt` does. -/
def strip0x : List Char → List Char
  | '0' :: 'x' :: rest => rest
  | '0' :: 'X' :: rest => rest
  | cs => cs

/-- Value of a maximal leading run of hex digits; `none` models NaN (no
digit consumed). -/
def parseHexDigits (cs : List Char) : Option Nat :=
  let digits := cs.takeWhile (fun c => (hexDigitVal c).isSome)
  if digits.isEmpty then none
  else some (digits.foldl (fun acc c => acc * 16 + (hexDigitVal c).getD 0) 0)

/-- JavaScript `parseInt(chunk, 16)`: leading whitespace, an optional sign,
an optional `0x` prefix, then the maximal hex-digit prefix; `none` is NaN. -/
def jsParseIntHex (cs : List Char) : Option Int :=
  match cs.dropWhile isJsSpace with
  | '-' :: rest => (parseHexDigits (strip0x rest)).map (fun n => -(n : Int))
  | '+' :: rest => (parseHexDigits (strip0x rest)).map (fun n => (n : Int))
  | rest => (parseHexDigits (strip0x rest)).map (fun n => (n : Int))

/-- The `Uint8Array` element conversion `ToUint8`: NaN becomes 0, other
values are reduced modulo 256 into 0..255. -/
def toUint8 (v : Option Int) : Nat :=
  match v with
  | none => 0
  | some i => (i.emod 256).toNat

/-- The signature-decoding pipeline of `verifySignature`:
`new Uint8Array(signature.match(/.{1,2}/g)?.map(b => parseInt(b, 16)) || [])`. -/
def hexDecodeLenient (s : String) : List Nat :=
  (hexChunks s.data).map (fun ch => toUint8 (jsParseIntHex ch))

/-- Shallow embedding of `verifySignature` (src/middleware.ts): decode the
hex signature leniently and compare it with the HMAC-SHA-256 of the UTF-8
message keyed by the UTF-8 secret. `crypto.subtle.verify` returns the byte
comparison's outcome, and the enclosing try/catch makes the function total:
it returns a boolean on every input. -/
def verifySignature (data signature secret : String) : Bool :=
  hexDecodeLenient signature == hmacSha256 (utf8 secret) (utf8 data)

/-- A fetch outcome that the ban-set readers experience as a failure: a
network error, a non-ok HTTP status, or an unparsable body. -/
def fetchFailed : FetchOutcome → Bool
  | .netErr => true
  | .resp ok json =>
    !ok || (match json with
            | .error _ => true
            | .ok _ => false)

/-- Deny responses of the first middleware.ts variant are never a
pass-through. -/
theorem MW1.mw1_handleAuthFailure_ne_next (req : Request) (reason : String) :
    MW1.handleAuthFailure req reason ≠ MWResponse.next := by
  unfold MW1.handleAuthFailure
  split <;> simp

/-- Deny responses of the second middleware.ts variant are never a
pass-through. -/
theorem MW2.mw2_handleAuthFailure_ne_next (req : Request) (reason : String) :
    MW2.handleAuthFailure req reason ≠ MWResponse.next := by
  unfold MW2.handleAuthFailure
  split <;> simp

/-- Deny responses of the detail-route embedded middleware are never a
pass-through. -/
theorem DetailMW.dr_handleAuthFailure_ne_next (req : Request) :
    DetailMW.handleAuthFailure req ≠ MWResponse.next := by
  unfold DetailMW.handleAuthFailure
  split <;> simp

/-- Block responses of the part_000 middleware are never a pass-through. -/
theorem Part0MW.block_ne_next (req : Request) (isApi : Bool) :
    Part0MW.block req isApi ≠ MWResponse.next := by
  unfold Part0MW.block
  split <;> simp

/-- A failed fetch makes part_000's `getBannedSet` throw. -/
theorem Part0MW.getBannedSet_failed (fetch : FetchOutcome)
    (h : fetchFailed fetch = true) :
    Part0MW.getBannedSet fetch = Except.error () := by
  unfold Part0MW.getBannedSet
  unfold fetchFailed at h
  cases fetch with
  | netErr => rfl
  | resp ok json =>
    cases ok with
    | false => rfl
    | true =>
      cases json with
      | error e => rfl
      | ok d => simp at h

/-- A failed fetch makes the detail-route refresh path throw, leaving the
cache untouched, after exactly one fetch attempt. -/
theorem DetailMW.refreshBanSet_failed (cache : Option DetailMW.BanCache)
    (now : Nat) (fetch : FetchOutcome) (h : fetchFailed fetch = true) :
    DetailMW.refreshBanSet cache now fetch = ⟨Except.error (), cache, 1⟩ := by
  unfold DetailMW.refreshBanSet
  unfold fetchFailed at h
  cases fetch with
  | netErr => rfl
  | resp ok json =>
    cases ok with
    | false => rfl
    | true =>
      cases json with
      | error e => rfl
      | ok d => simp at h

/-- Well-formed even-length hexadecimal string (the domain notion used by the
spec: non-empty, even length, hex digits only). -/
def wellFormedHex (s : String) : Bool :=
  s ≠ "" && s.length % 2 == 0 && s.data.all (fun c => (hexDigitVal c).isSome)

/-! ## Claim C1 -/

/-- C1 counterexample: in the detail-route embedded middleware, a multi-user
request with a valid username (and valid signature), a failing directory
fetch and no cached ban set is ALLOWED: the caught lookup error falls through
to `NextResponse.next()` after exactly one failed fetch attempt, contradicting
the claim that such a request always yields a denial. -/
theorem c1_counterexample :
    (DetailMW.middleware ⟨"/x", ""⟩ ⟨some "pw", some "redis"⟩
      (some ⟨some "alice", none, some "beef"⟩) true none 0 .netErr).res =
        MWResponse.next ∧
    (DetailMW.middleware ⟨"/x", ""⟩ ⟨some "pw", some "redis"⟩
      (some ⟨some "alice", none, some "beef"⟩) true none 0 .netErr).fetches = 1 :=
  ⟨rfl, rfl⟩

/-- C1 amended: the fail-closed default holds in the two variants that have
no snapshot to fall back on — the part_000 middleware denies every non-exempt
multi-user request when the directory fetch fails, and the middleware.ts
`checkUserAuthorization` variant denies every non-exempt request when the
status fetch throws — while the detail-route embedded middleware is fail-open
(see the counterexample). -/
theorem c1_amended :
    (∀ (req : Request) (env : Env) (auth : Option AuthInfo) (sigOk : Bool)
       (fetch : FetchOutcome),
      Part0MW.shouldSkip req.pathname = false →
      resolveStorageType env ≠ "localstorage" →
      fetchFailed fetch = true →
      (Part0MW.middleware req env auth sigOk fetch).res ≠ MWResponse.next) ∧
    (∀ (req : Request) (env : Env) (auth : Option AuthInfo) (sigOk : Bool),
      DetailMW.shouldSkipAuth req.pathname = false →
      (MW2.middleware req env auth (Except.error ()) sigOk).res ≠
        MWResponse.next) := by
  constructor
  · intro req env auth sigOk fetch hskip hmode hfail
    have hgb := Part0MW.getBannedSet_failed fetch hfail
    cases auth with
    | none =>
      by_cases h1 : truthyStr env.password = true <;>
      simp [Part0MW.middleware, hskip, Part0MW.block_ne_next, h1]
    | some a =>
      by_cases h1 : truthyStr env.password = true <;>
      by_cases h2 : truthyStr a.username = true <;>
      by_cases h3 : truthyStr a.signature = true <;>
      by_cases h4 : sigOk = true <;>
      simp [Part0MW.middleware, hskip, hmode, hgb, Part0MW.block_ne_next,
        h1, h2, h3, h4]
  · intro req env auth sigOk hskip
    cases auth with
    | none =>
      by_cases h1 : truthyStr env.password = true <;>
      simp [MW2.middleware, hskip, MW2.mw2_handleAuthFailure_ne_next, h1]
    | some a =>
      by_cases h1 : truthyStr env.password = true <;>
      by_cases h2 : truthyStr a.username = true <;>
      simp [MW2.middleware, MW2.checkUserAuthorization, hskip,
        MW2.mw2_handleAuthFailure_ne_next, h1, h2]

/-- C1 amended witness: a concrete non-exempt multi-user request with a valid
username whose directory fetch fails is denied by the part_000 middleware. -/
theorem c1_amended_witness :
    (Part0MW.middleware ⟨"/x", ""⟩ ⟨some "pw", some "redis"⟩
      (some ⟨some "alice", none, some "beef"⟩) true .netErr).res ≠
      MWResponse.next :=
  c1_amended.1 ⟨"/x", ""⟩ ⟨some "pw", some "redis"⟩
    (some ⟨some "alice", none, some "beef"⟩) true .netErr
    (by decide) (by decide) (by decide)

/-! ## Claim C2 -/

/-- C2 counterexample: with a previously captured snapshot (captured at time 0
with banned set `["alice"]`) that has gone stale, a failed refresh fetch makes
the detail-route `getBannedSet` raise an error after one fetch attempt — it
does not return the prior snapshot's ban set. -/
theorem c2_counterexample :
    (DetailMW.getBannedSet (some ⟨0, ["alice"]⟩) 15000 FetchOutcome.netErr).result =
      Except.error () ∧
    (DetailMW.getBannedSet (some ⟨0, ["alice"]⟩) 15000 FetchOutcome.netErr).fetches = 1 :=
  ⟨rfl, rfl⟩

/-- C2 amended: a refresh fetch only ever happens once the snapshot is stale
(within the TTL the cached set is served with no fetch at all), and when the
snapshot is stale and the refresh fails, the lookup raises an error — leaving
the stale cache cell in place but not serving it — which the embedding
middleware catches as a fail-open pass-through. -/
theorem c2_amended :
    ∀ (c : DetailMW.BanCache) (now : Nat) (fetch : FetchOutcome),
      (now - c.capturedAt < DetailMW.BAN_CACHE_TTL →
        DetailMW.getBannedSet (some c) now fetch = ⟨Except.ok c.set, some c, 0⟩) ∧
      (DetailMW.BAN_CACHE_TTL ≤ now - c.capturedAt → fetchFailed fetch = true →
        DetailMW.getBannedSet (some c) now fetch = ⟨Except.error (), some c, 1⟩) := by
  intro c now fetch
  constructor
  · intro hfresh
    simp only [DetailMW.getBannedSet]
    rw [if_pos hfresh]
  · intro hstale hfail
    have hc : ¬ (now - c.capturedAt < DetailMW.BAN_CACHE_TTL) := by omega
    simp only [DetailMW.getBannedSet]
    rw [if_neg hc]
    exact DetailMW.refreshBanSet_failed _ _ _ hfail

/-- C2 amended witness: concrete fresh-hit and stale-failure lookups. -/
theorem c2_amended_witness :
    DetailMW.getBannedSet (some ⟨0, ["alice"]⟩) 100 FetchOutcome.netErr =
      ⟨Except.ok ["alice"], some ⟨0, ["alice"]⟩, 0⟩ ∧
    DetailMW.getBannedSet (some ⟨0, ["alice"]⟩) 20000 FetchOutcome.netErr =
      ⟨Except.error (), some ⟨0, ["alice"]⟩, 1⟩ :=
  ⟨(c2_amended ⟨0, ["alice"]⟩ 100 FetchOutcome.netErr).1 (by decide),
   (c2_amended ⟨0, ["alice"]⟩ 20000 FetchOutcome.netErr).2 (by decide) (by decide)⟩

/-! ## Claim C7 -/

/-- C7: if the cache was refreshed at time t0, a query strictly before
t0 + TTL issues no fetch and returns the cached set unchanged, and a query at
or after t0 + TTL attempts exactly one refresh fetch, whatever its outcome. -/
theorem c7_cache_freshness :
    ∀ (t0 : Nat) (s : List String) (now : Nat) (fetch : FetchOutcome),
      (now < t0 + DetailMW.BAN_CACHE_TTL →
        DetailMW.getBannedSet (some ⟨t0, s⟩) now fetch = ⟨Except.ok s, some ⟨t0, s⟩, 0⟩) ∧
      (t0 + DetailMW.BAN_CACHE_TTL ≤ now →
        (DetailMW.getBannedSet (some ⟨t0, s⟩) now fetch).fetches = 1) := by
  intro t0 s now fetch
  have httl : DetailMW.BAN_CACHE_TTL = 15000 := rfl
  have hca : (⟨t0, s⟩ : DetailMW.BanCache).capturedAt = t0 := rfl
  constructor
  · intro hfresh
    rw [httl] at hfresh
    have hc : now - (⟨t0, s⟩ : DetailMW.BanCache).capturedAt < DetailMW.BAN_CACHE_TTL := by
      rw [hca, httl]; omega
    simp only [DetailMW.getBannedSet]
    rw [if_pos hc]
  · intro hstale
    rw [httl] at hstale
    have hc : ¬ (now - (⟨t0, s⟩ : DetailMW.BanCache).capturedAt < DetailMW.BAN_CACHE_TTL) := by
      rw [hca, httl]; omega
    simp only [DetailMW.getBannedSet]
    rw [if_neg hc]
    unfold DetailMW.refreshBanSet
    cases fetch with
    | netErr => rfl
    | resp ok json =>
      cases ok with
      | false => rfl
      | true =>
        cases json with
        | error e => rfl
        | ok d => rfl

/-- C7 witness: a query 1 ms before expiry of a snapshot captured at t0 = 0
serves the cache with no fetch; a query 1 ms after expiry attempts exactly
one fetch. -/
theorem c7_cache_freshness_witness :
    DetailMW.getBannedSet (some ⟨0, ["alice"]⟩) 14999 FetchOutcome.netErr =
      ⟨Except.ok ["alice"], some ⟨0, ["alice"]⟩, 0⟩ ∧
    (DetailMW.getBannedSet (some ⟨0, ["alice"]⟩) 15001 FetchOutcome.netErr).fetches = 1 :=
  ⟨(c7_cache_freshness 0 ["alice"] 14999 FetchOutcome.netErr).1 (by decide),
   (c7_cache_freshness 0 ["alice"] 15001 FetchOutcome.netErr).2 (by decide)⟩

/-! ## Claim C3 -/

/-- C3 counterexample: in the first middleware.ts variant, a request carrying
a credential whose signature FAILS still triggers the directory lookup — both
store calls (`isUserExist` and `getAdminConfig`) run before the signature is
ever checked — contradicting the claim that no directory fetch occurs for a
request whose signature fails. -/
theorem c3_counterexample :
    (MW1.middleware ⟨"/x", ""⟩ ⟨some "pw", some "redis"⟩
      (some ⟨some "alice", none, some "beef"⟩)
      ⟨Except.ok true, Except.ok (some [])⟩ false).dirLookups = 2 ∧
    (MW1.middleware ⟨"/x", ""⟩ ⟨some "pw", some "redis"⟩
      (some ⟨some "alice", none, some "beef"⟩)
      ⟨Except.ok true, Except.ok (some [])⟩ false).res ≠ MWResponse.next :=
  ⟨rfl, by decide⟩

/-- C3 amended: requests with an absent credential trigger no directory
lookup in either the first middleware.ts variant or the part_000 variant, and
in the part_000 variant a failed signature also precedes (and so prevents)
the ban-set fetch; but in the first middleware.ts variant the store lookup
runs before password/signature verification, so every non-exempt request with
a username-bearing credential performs at least one store call regardless of
its signature's validity. -/
theorem c3_amended :
    (∀ (req : Request) (env : Env) (db : MW1.Db) (sigOk : Bool),
      (MW1.middleware req env none db sigOk).dirLookups = 0) ∧
    (∀ (req : Request) (env : Env) (fetchStatus : Except Unit Nat) (sigOk : Bool),
      (MW2.middleware req env none fetchStatus sigOk).dirLookups = 0) ∧
    (∀ (req : Request) (env : Env) (sigOk : Bool)
       (cache : Option DetailMW.BanCache) (now : Nat) (fetch : FetchOutcome),
      (DetailMW.middleware req env none sigOk cache now fetch).fetches = 0) ∧
    (∀ (req : Request) (env : Env) (sigOk : Bool) (fetch : FetchOutcome),
      (Part0MW.middleware req env none sigOk fetch).dirLookups = 0) ∧
    (∀ (req : Request) (env : Env) (a : AuthInfo) (fetch : FetchOutcome),
      resolveStorageType env ≠ "localstorage" →
      (Part0MW.middleware req env (some a) false fetch).dirLookups = 0) ∧
    (∀ (req : Request) (env : Env) (auth : Option AuthInfo)
       (cache : Option DetailMW.BanCache) (now : Nat) (fetch : FetchOutcome),
      (DetailMW.middleware req env auth false cache now fetch).fetches = 0) ∧
    (∀ (req : Request) (env : Env) (a : AuthInfo) (db : MW1.Db) (sigOk : Bool),
      DetailMW.shouldSkipAuth req.pathname = false →
      truthyStr env.password = true →
      truthyStr a.username = true →
      1 ≤ (MW1.middleware req env (some a) db sigOk).dirLookups) ∧
    (∀ (req : Request) (env : Env) (a : AuthInfo)
       (fetchStatus : Except Unit Nat) (sigOk : Bool),
      DetailMW.shouldSkipAuth req.pathname = false →
      truthyStr env.password = true →
      truthyStr a.username = true →
      1 ≤ (MW2.middleware req env (some a) fetchStatus sigOk).dirLookups) := by
  refine ⟨?_, ?_, ?_, ?_, ?_, ?_, ?_, ?_⟩
  · intro req env db sigOk
    by_cases h0 : DetailMW.shouldSkipAuth req.pathname = true <;>
    by_cases h1 : truthyStr env.password = true <;>
    simp [MW1.middleware, h0, h1]
  · intro req env fetchStatus sigOk
    by_cases h0 : DetailMW.shouldSkipAuth req.pathname = true <;>
    by_cases h1 : truthyStr env.password = true <;>
    simp [MW2.middleware, h0, h1]
  · intro req env sigOk cache now fetch
    by_cases h0 : DetailMW.shouldSkipAuth req.pathname = true <;>
    by_cases h1 : truthyStr env.password = true <;>
    simp [DetailMW.middleware, h0, h1]
  · intro req env sigOk fetch
    by_cases h0 : Part0MW.shouldSkip req.pathname = true <;>
    by_cases h1 : truthyStr env.password = true <;>
    simp [Part0MW.middleware, h0, h1]
  · intro req env a fetch hmode
    by_cases h0 : Part0MW.shouldSkip req.pathname = true <;>
    by_cases h1 : truthyStr env.password = true <;>
    by_cases h2 : truthyStr a.username = true <;>
    by_cases h3 : truthyStr a.signature = true <;>
    simp [Part0MW.middleware, h0, h1, h2, h3, hmode]
  · intro req env auth cache now fetch
    cases auth with
    | none =>
      by_cases h0 : DetailMW.shouldSkipAuth req.pathname = true <;>
      by_cases h1 : truthyStr env.password = true <;>
      simp [DetailMW.middleware, h0, h1]
    | some a =>
      by_cases h0 : DetailMW.shouldSkipAuth req.pathname = true <;>
      by_cases h1 : truthyStr env.password = true <;>
      by_cases h2 : truthyStr a.username = true <;>
      by_cases h3 : truthyStr a.signature = true <;>
      simp [DetailMW.middleware, h0, h1, h2, h3] <;>
      (repeat' split) <;> simp
  · intro req env a db sigOk h0 h1 h2
    obtain ⟨dbe, dbc⟩ := db
    cases dbe with
    | error e => simp [MW1.middleware, h0, h1, h2]
    | ok userExists =>
      cases userExists with
      | false => simp [MW1.middleware, h0, h1, h2]
      | true =>
        cases dbc with
        | error e => simp [MW1.middleware, h0, h1, h2]
        | ok cfgUsers =>
          by_cases h4 : truthyStr a.password = true <;>
          by_cases h5 : truthyStr a.signature = true <;>
          by_cases h6 : sigOk = true <;>
          simp [MW1.middleware, h0, h1, h2, h4, h5, h6] <;>
          (repeat' split) <;> simp
  · intro req env a fetchStatus sigOk h0 h1 h2
    by_cases h3 : MW2.checkUserAuthorization fetchStatus = true <;>
    by_cases h4 : truthyStr a.password = true <;>
    by_cases h5 : truthyStr a.signature = true <;>
    by_cases h6 : sigOk = true <;>
    simp [MW2.middleware, h0, h1, h2, h3, h4, h5, h6] <;>
    (repeat' split) <;> simp

/-- C3 amended witness: for a concrete non-exempt request with a
username-bearing credential and a failing signature, both middleware.ts
variants still perform at least one directory lookup. -/
theorem c3_amended_witness :
    1 ≤ (MW1.middleware ⟨"/x", ""⟩ ⟨some "pw", some "redis"⟩
      (some ⟨some "alice", none, some "beef"⟩)
      ⟨Except.ok true, Except.ok (some [])⟩ false).dirLookups ∧
    1 ≤ (MW2.middleware ⟨"/x", ""⟩ ⟨some "pw", some "redis"⟩
      (some ⟨some "alice", none, some "beef"⟩) (Except.ok 200) false).dirLookups :=
  ⟨c3_amended.2.2.2.2.2.2.1 ⟨"/x", ""⟩ ⟨some "pw", some "redis"⟩
     ⟨some "alice", none, some "beef"⟩ ⟨Except.ok true, Except.ok (some [])⟩ false
     (by decide) (by decide) (by decide),
   c3_amended.2.2.2.2.2.2.2 ⟨"/x", ""⟩ ⟨some "pw", some "redis"⟩
     ⟨some "alice", none, some "beef"⟩ (Except.ok 200) false
     (by decide) (by decide) (by decide)⟩

/-! ## Claim C4 -/

/-- C4 counterexample: in the first middleware.ts variant, an API request
denied because the user was DELETED gets status 401 — not the claimed 403 —
and the API response carries no auth-cookie deletion (the deletion happens
only on the page-redirect branch). -/
theorem c4_counterexample :
    MW1.handleAuthFailure ⟨"/api/x", ""⟩ "User is deleted" =
      MWResponse.apiResp 401 "User is deleted" false := by
  decide

/-- C4 amended: on API paths, the first middleware.ts variant maps its deny
reasons to 403 only when they mention banned/forbidden — so banned gives 403
but deleted, unauthenticated, invalid-signature and server-error all give
401 — and attaches no cookie deletion to API responses (the second variant
additionally maps its combined deleted-or-banned reason to 403, again without
cookie deletion); part_000's block answers every API denial with 403 plus
cookie deletion; the detail-route variant's handleAuthFailure answers 401
without deletion while its killAuthAndBlock answers 403 with deletion. -/
theorem c4_amended :
    (∀ req : Request, jsStartsWith req.pathname "/api" = true →
      MW1.handleAuthFailure req "No valid auth info or username found" =
        MWResponse.apiResp 401 "No valid auth info or username found" false ∧
      MW1.handleAuthFailure req "Signature invalid or not found" =
        MWResponse.apiResp 401 "Signature invalid or not found" false ∧
      MW1.handleAuthFailure req "User is banned" =
        MWResponse.apiResp 403 "User is banned" false ∧
      MW1.handleAuthFailure req "User is deleted" =
        MWResponse.apiResp 401 "User is deleted" false ∧
      MW1.handleAuthFailure req "Server error during auth check" =
        MWResponse.apiResp 401 "Server error during auth check" false ∧
      MW2.handleAuthFailure req "User is deleted or banned (Authorization Failed)" =
        MWResponse.apiResp 403 "User is deleted or banned (Authorization Failed)" false) ∧
    (∀ req : Request, Part0MW.block req true = MWResponse.apiResp 403 "Forbidden" true) ∧
    (∀ req : Request, jsStartsWith req.pathname "/api" = true →
      DetailMW.handleAuthFailure req = MWResponse.apiResp 401 "Unauthorized" false ∧
      DetailMW.killAuthAndBlock req true = MWResponse.apiResp 403 "Forbidden" true) := by
  refine ⟨?_, ?_, ?_⟩
  · intro req h
    refine ⟨?_, ?_, ?_, ?_, ?_, ?_⟩ <;>
      simp [MW1.handleAuthFailure, MW2.handleAuthFailure, h] <;> decide
  · intro req
    rfl
  · intro req h
    exact ⟨by simp [DetailMW.handleAuthFailure, h], rfl⟩

/-- C4 amended witness: the mapping at a concrete API request. -/
theorem c4_amended_witness :
    MW1.handleAuthFailure ⟨"/api/detail", ""⟩ "User is banned" =
      MWResponse.apiResp 403 "User is banned" false ∧
    Part0MW.block ⟨"/api/detail", ""⟩ true =
      MWResponse.apiResp 403 "Forbidden" true ∧
    DetailMW.handleAuthFailure ⟨"/api/detail", ""⟩ =
      MWResponse.apiResp 401 "Unauthorized" false :=
  ⟨(c4_amended.1 ⟨"/api/detail", ""⟩ (by decide)).2.2.1,
   c4_amended.2.1 ⟨"/api/detail", ""⟩,
   (c4_amended.2.2 ⟨"/api/detail", ""⟩ (by decide)).1⟩

/-! ## Claim C5 -/

/-- C5 counterexample: in the part_000 middleware in localstorage
(single-shared-secret) mode, a request whose credential password EQUALS the
server secret is nonetheless denied when its username appears banned in the
directory — and that denial required one directory fetch — contradicting both
halves of the claim (deny exactly on password mismatch; no per-user directory
check in this mode). -/
theorem c5_counterexample :
    (Part0MW.middleware ⟨"/x", ""⟩ ⟨some "pw", none⟩
      (some ⟨some "alice", some "pw", none⟩) false
      (FetchOutcome.resp true (Except.ok
        ⟨some [⟨some "alice", none, none, none, none, some (.jbool true), none, none⟩],
         none, none⟩))).res = MWResponse.redirect "/login" [] true ∧
    (Part0MW.middleware ⟨"/x", ""⟩ ⟨some "pw", none⟩
      (some ⟨some "alice", some "pw", none⟩) false
      (FetchOutcome.resp true (Except.ok
        ⟨some [⟨some "alice", none, none, none, none, some (.jbool true), none, none⟩],
         none, none⟩))).dirLookups = 1 :=
  ⟨rfl, rfl⟩

/-- C5 amended: only the detail-route embedded middleware matches the claim —
in localstorage mode it passes a request through exactly when the credential's
password equals the server secret, with zero directory fetches; the part_000
middleware in localstorage mode additionally fetches the ban set whenever the
credential carries a username (denying banned users fail-closed), and the
first middleware.ts variant consults the durable store even in localstorage
mode, before the password comparison. -/
theorem c5_amended :
    (∀ (req : Request) (env : Env) (a : AuthInfo) (sigOk : Bool)
       (cache : Option DetailMW.BanCache) (now : Nat) (fetch : FetchOutcome)
       (pw : String),
      DetailMW.shouldSkipAuth req.pathname = false →
      env.password = some pw → pw ≠ "" →
      resolveStorageType env = "localstorage" →
      (DetailMW.middleware req env (some a) sigOk cache now fetch).fetches = 0 ∧
      ((DetailMW.middleware req env (some a) sigOk cache now fetch).res =
          MWResponse.next ↔ a.password = some pw)) ∧
    (∀ (req : Request) (env : Env) (a : AuthInfo) (sigOk : Bool)
       (fetch : FetchOutcome) (pw : String),
      Part0MW.shouldSkip req.pathname = false →
      env.password = some pw → pw ≠ "" →
      resolveStorageType env = "localstorage" →
      a.password = some pw → truthyStr a.username = true →
      (Part0MW.middleware req env (some a) sigOk fetch).dirLookups = 1) ∧
    (∀ (req : Request) (env : Env) (a : AuthInfo) (db : MW1.Db) (sigOk : Bool),
      DetailMW.shouldSkipAuth req.pathname = false →
      truthyStr env.password = true →
      truthyStr a.username = true →
      resolveStorageType env = "localstorage" →
      1 ≤ (MW1.middleware req env (some a) db sigOk).dirLookups) ∧
    (∀ (req : Request) (env : Env) (a : AuthInfo)
       (fetchStatus : Except Unit Nat) (sigOk : Bool),
      DetailMW.shouldSkipAuth req.pathname = false →
      truthyStr env.password = true →
      truthyStr a.username = true →
      resolveStorageType env = "localstorage" →
      1 ≤ (MW2.middleware req env (some a) fetchStatus sigOk).dirLookups) := by
  refine ⟨?_, ?_, ?_, ?_⟩
  · intro req env a sigOk cache now fetch pw hskip hpw hne hmode
    have h1 : truthyStr env.password = true := by
      rw [hpw]; simp [truthyStr, hne]
    have hgd : env.password.getD "" = pw := by rw [hpw]; rfl
    have hts : truthyStr (some pw) = true := by simp [truthyStr, hne]
    by_cases ha : a.password = some pw
    · have hat : truthyStr a.password = true := by
        rw [ha]; simp [truthyStr, hne]
      constructor
      · simp [DetailMW.middleware, hskip, h1, hmode, ha, hat, hgd, hts]
      · simp [DetailMW.middleware, hskip, h1, hmode, ha, hat, hgd, hts]
    · constructor
      · by_cases hat : truthyStr a.password = true <;>
        simp [DetailMW.middleware, hskip, h1, hmode, ha, hat, hgd]
      · by_cases hat : truthyStr a.password = true <;>
        simp [DetailMW.middleware, hskip, h1, hmode, ha, hat, hgd,
          DetailMW.dr_handleAuthFailure_ne_next]
  · intro req env a sigOk fetch pw hskip hpw hne hmode ha hu
    have h1 : truthyStr env.password = true := by
      rw [hpw]; simp [truthyStr, hne]
    have hap : (a.password == env.password) = true := by
      rw [hpw, ha]; simp
    simp [Part0MW.middleware, hskip, h1, hmode, hap, hu]
    split <;> simp_all <;> split <;> simp_all
  · intro req env a db sigOk h0 h1 h2 hmode
    obtain ⟨dbe, dbc⟩ := db
    cases dbe with
    | error e => simp [MW1.middleware, h0, h1, h2]
    | ok userExists =>
      cases userExists with
      | false => simp [MW1.middleware, h0, h1, h2]
      | true =>
        cases dbc with
        | error e => simp [MW1.middleware, h0, h1, h2]
        | ok cfgUsers =>
          by_cases h4 : truthyStr a.password = true <;>
          simp [MW1.middleware, h0, h1, h2, h4, hmode] <;>
          (repeat' split) <;> simp
  · intro req env a fetchStatus sigOk h0 h1 h2 hmode
    by_cases h3 : MW2.checkUserAuthorization fetchStatus = true <;>
    by_cases h4 : truthyStr a.password = true <;>
    simp [MW2.middleware, h0, h1, h2, h3, h4, hmode] <;>
    (repeat' split) <;> simp

/-- C5 amended witness: a concrete localstorage-mode request through the
detail-route embedded middleware with the correct password is allowed with
zero fetches. -/
theorem c5_amended_witness :
    (DetailMW.middleware ⟨"/x", ""⟩ ⟨some "pw", none⟩
      (some ⟨none, some "pw", none⟩) false none 0 FetchOutcome.netErr).fetches = 0 ∧
    ((DetailMW.middleware ⟨"/x", ""⟩ ⟨some "pw", none⟩
      (some ⟨none, some "pw", none⟩) false none 0 FetchOutcome.netErr).res =
        MWResponse.next ↔ (⟨none, some "pw", none⟩ : AuthInfo).password = some "pw") :=
  c5_amended.1 ⟨"/x", ""⟩ ⟨some "pw", none⟩ ⟨none, some "pw", none⟩ false none 0
    FetchOutcome.netErr "pw" (by decide) rfl (by decide) rfl

/-! ## Claim C6 -/

/-- Names already in the accumulator survive the rest of part_000's ban-set
fold. -/
theorem Part0MW.buildBanSet_acc_mem (users : List RawUser) :
    ∀ (acc : List String) (x : String), x ∈ acc →
      x ∈ users.foldl (fun acc u =>
        let nm := LOWER (rawName u)
        let banned := coerceBanned (nullish u.banned (nullish u.disabled u.status))
        if nm ≠ "" && banned then acc ++ [nm] else acc) acc := by
  induction users with
  | nil => intro acc x hx; simpa using hx
  | cons v vs ih =>
    intro acc x hx
    rw [List.foldl_cons]
    apply ih
    dsimp only
    split
    · exact List.mem_append_left _ hx
    · exact hx

/-- Every banned entry with a non-empty normalized name lands in part_000's
ban set under its `LOWER`ed name. -/
theorem Part0MW.buildBanSet_mem (users : List RawUser) (u : RawUser)
    (hu : u ∈ users)
    (hb : coerceBanned (nullish u.banned (nullish u.disabled u.status)) = true)
    (hn : LOWER (rawName u) ≠ "") :
    LOWER (rawName u) ∈ Part0MW.buildBanSet users := by
  unfold Part0MW.buildBanSet
  suffices h : ∀ acc : List String,
      LOWER (rawName u) ∈ users.foldl (fun acc u =>
        let nm := LOWER (rawName u)
        let banned := coerceBanned (nullish u.banned (nullish u.disabled u.status))
        if nm ≠ "" && banned then acc ++ [nm] else acc) acc from h []
  induction users with
  | nil => cases hu
  | cons v vs ih =>
    intro acc
    rw [List.foldl_cons]
    rcases List.mem_cons.mp hu with he | ht
    · subst he
      apply Part0MW.buildBanSet_acc_mem
      dsimp only
      rw [if_pos (by simp [hb, hn])]
      exact List.mem_append_right _ (List.mem_singleton.mpr rfl)
    · exact ih ht _

/-- C6 counterexample: the detail-route ingestion does NOT normalize the
numeric ban encoding — a user entry carrying `banned: 1` is dropped from the
banned set (its coercion accepts only `banned === true`, `disabled === true`
or `status === 'banned'`), so this directory response yields an empty ban
set, contradicting the claim that numeric 1 yields banned = true at every
ingestion site. -/
theorem c6_counterexample :
    DetailMW.buildBanSet
      [⟨some "alice", none, none, none, none, some (.jnum 1), none, none⟩] = [] :=
  rfl

/-- C6 amended: the shared coercion used by `sanitizeUsers` and part_000's
ingestion does map all six encodings to banned = true, and part_000
lower-cases and trims usernames identically at insertion and lookup, so a
banned user is caught there under any casing of the credential's username;
the detail-route ingestion, however, recognizes only `banned === true`,
`disabled === true` or `status === 'banned'` and inserts the raw
(non-case-normalized) name, which its lookup compares case-sensitively. -/
theorem c6_amended :
    (coerceBanned (some (.jbool true)) = true ∧
     coerceBanned (some (.jnum 1)) = true ∧
     coerceBanned (some (.jstr "1")) = true ∧
     coerceBanned (some (.jstr "true")) = true ∧
     coerceBanned (some (.jstr "banned")) = true ∧
     coerceBanned (some (.jstr "disabled")) = true) ∧
    (∀ (users : List RawUser) (u : RawUser) (cred : Option String),
      u ∈ users →
      coerceBanned (nullish u.banned (nullish u.disabled u.status)) = true →
      LOWER (rawName u) ≠ "" →
      LOWER cred = LOWER (rawName u) →
      (Part0MW.buildBanSet users).contains (LOWER cred) = true) ∧
    (DetailMW.buildBanSet
       [⟨some "Alice", none, none, none, none, some (.jbool true), none, none⟩] =
         ["Alice"] ∧
     (["Alice"] : List String).contains "alice" = false) := by
  refine ⟨by decide, ?_, by decide⟩
  intro users u cred hu hb hn hcred
  rw [hcred]
  have hm := Part0MW.buildBanSet_mem users u hu hb hn
  exact List.elem_iff.mpr hm

/-- C6 amended witness: a user banned via the string encoding "true" under
the name "Alice" is found by a part_000 lookup for the credential username
"ALICE". -/
theorem c6_amended_witness :
    (Part0MW.buildBanSet
      [⟨some "Alice", none, none, none, none, some (.jstr "true"), none, none⟩]).contains
        (LOWER (some "ALICE")) = true :=
  c6_amended.2.1
    [⟨some "Alice", none, none, none, none, some (.jstr "true"), none, none⟩]
    ⟨some "Alice", none, none, none, none, some (.jstr "true"), none, none⟩
    (some "ALICE") (by simp) (by decide) (by decide) (by decide)

/-! ## Claim C8 -/

/-- A SHA-256 digest is always 32 bytes. -/
theorem digestBytes_length (st : Hash8) : (digestBytes st).length = 32 := by
  simp [digestBytes, wordToBytes4]

/-- SHA-256 emits 32 bytes on every input. -/
theorem sha256_length (msg : List Nat) : (sha256 msg).length = 32 := by
  unfold sha256
  exact digestBytes_length _

set_option maxRecDepth 10000 in
/-- C8 counterexample: prepending a line feed to a valid 64-digit signature
hex yields a malformed string (non-hex character, odd length), yet
`verifySignature` accepts it: the `match(/.{1,2}/g)` chunking skips the line
terminator, so the lenient decode still equals the expected HMAC, and the
verifier returns true — contradicting the claim that every malformed-hex
signature verifies false. The hex below is HMAC-SHA-256 of "alice" keyed by
"pw". -/
theorem c8_counterexample :
    wellFormedHex
      "\n30a54d2b328ca6ec16e01fb1973485c9239afebbf88e975226c1b63acc894f61" = false ∧
    verifySignature "alice"
      "\n30a54d2b328ca6ec16e01fb1973485c9239afebbf88e975226c1b63acc894f61" "pw" = true :=
  ⟨by decide, by decide⟩

/-- C8 amended: the verifier is total (the try/catch yields a boolean on every
input, never an exception) and returns false exactly when the LENIENT decode
of the signature — pairwise chunking with line terminators skipped,
`parseInt` prefix parsing, NaN mapped to byte 0 — differs from the expected
MAC; in particular the empty signature always fails, since the MAC is 32
bytes. Malformed hex is not rejected as such: a malformed signature whose
lenient decode equals the MAC verifies true (see the counterexample). -/
theorem c8_amended :
    (∀ data signature secret : String,
      hexDecodeLenient signature ≠ hmacSha256 (utf8 secret) (utf8 data) →
      verifySignature data signature secret = false) ∧
    (∀ data secret : String, verifySignature data "" secret = false) := by
  constructor
  · intro data signature secret h
    unfold verifySignature
    exact beq_eq_false_iff_ne.mpr h
  · intro data secret
    have h32 : (hmacSha256 (utf8 secret) (utf8 data)).length = 32 :=
      sha256_length _
    unfold verifySignature
    cases hl : hmacSha256 (utf8 secret) (utf8 data) with
    | nil => rw [hl] at h32; simp at h32
    | cons b bs =>
      show (hexDecodeLenient "" == b :: bs) = false
      rfl

set_option maxRecDepth 10000 in
/-- C8 amended witness: the malformed signature "zz" decodes to the single
byte 0, which differs from the 32-byte MAC, so verification fails. -/
theorem c8_amended_witness :
    verifySignature "a" "zz" "k" = false :=
  c8_amended.1 "a" "zz" "k" (by decide)

/-! ## Claim C9 -/

/-- C9: a GET of the status route without a (truthy) username parameter
returns 400 "Missing username" with the no-store cache header and zero
storage calls, for every storage state; and with a truthy username the
status is never 400, so the missing-parameter outcome is distinct from the
200/403/404 (and 500) outcomes. -/
theorem c9_missing_username :
    (∀ db : StatusRoute.Db,
      StatusRoute.GET none db = ⟨400, "Missing username", "no-store, max-age=0", 0⟩) ∧
    (∀ (db : StatusRoute.Db) (u : Option String), truthyStr u = true →
      (StatusRoute.GET u db).status ≠ 400) := by
  constructor
  · intro db
    rfl
  · intro db u hu
    obtain ⟨e, c⟩ := db
    cases e with
    | error e0 => simp [StatusRoute.GET, hu]
    | ok ex =>
      cases ex with
      | false => simp [StatusRoute.GET, hu]
      | true =>
        cases c with
        | error e0 => simp [StatusRoute.GET, hu]
        | ok cfg =>
          simp only [StatusRoute.GET, hu]
          (repeat' split) <;> simp_all

/-- C9 witness: a concrete request with a username present does not get the
missing-parameter status. -/
theorem c9_missing_username_witness :
    (StatusRoute.GET (some "alice")
      ⟨Except.ok true, Except.ok (some [])⟩).status ≠ 400 :=
  c9_missing_username.2 ⟨Except.ok true, Except.ok (some [])⟩ (some "alice")
    (by decide)

/-! ## Claim C10 -/

/-- A 200 from the detail endpoint's parameter-and-downstream tail carries
exactly the public cache headers. -/
theorem DetailAPI.detailTail_200 (id source : Option String) (keys : List String)
    (fd : Except Unit Unit) (c : Nat)
    (h : (DetailAPI.detailTail id source keys fd c).status = 200) :
    DetailAPI.detailTail id source keys fd c = ⟨200, DetailAPI.cacheHeaders c⟩ := by
  unfold DetailAPI.detailTail at h ⊢
  by_cases h1 : truthyStr id = true <;>
  by_cases h2 : truthyStr source = true <;>
  by_cases h3 : DetailAPI.idValid (id.getD "") = true <;>
  by_cases h4 : keys.contains (source.getD "") = true <;>
  cases fd <;> simp_all

/-- C10: every 200 response of the detail endpoint carries the public
Cache-Control / CDN-Cache-Control / Vercel-CDN-Cache-Control headers with the
configured (positive, by hypothesis on the external `getCacheTime` value)
max-age interpolated, and the 200 was only reachable because the per-user
ban check came out clean — and, in the d1/redis/upstash storage modes, the
per-user existence check (`verifyUser`) succeeded as well. -/
theorem c10_success_cacheable :
    ∀ (auth : Option AuthInfo) (cfgUsers : Option (List AdminUser)) (env : Env)
      (verifyUser : Except Unit Bool) (id source : Option String)
      (apiSiteKeys : List String) (fetchDetail : Except Unit Unit) (cacheTime : Nat),
      0 < cacheTime →
      (DetailAPI.GET auth cfgUsers env verifyUser id source apiSiteKeys fetchDetail
        cacheTime).status = 200 →
      (DetailAPI.GET auth cfgUsers env verifyUser id source apiSiteKeys fetchDetail
        cacheTime).headers = DetailAPI.cacheHeaders cacheTime ∧
      ∃ a, auth = some a ∧ truthyStr a.username = true ∧
        bannedIn cfgUsers (a.username.getD "") = false ∧
        ((resolveStorageType env = "d1" ∨ resolveStorageType env = "redis" ∨
          resolveStorageType env = "upstash") → verifyUser = Except.ok true) := by
  intro auth cfg env vu id src keys fd c hpos h
  cases auth with
  | none => simp [DetailAPI.GET] at h
  | some a =>
    by_cases hu : truthyStr a.username = true
    case neg => simp [DetailAPI.GET, hu] at h
    by_cases hb : bannedIn cfg (a.username.getD "") = true
    case pos => simp [DetailAPI.GET, hu, hb] at h
    by_cases hm : (resolveStorageType env == "d1" || resolveStorageType env == "redis" ||
        resolveStorageType env == "upstash") = true
    · cases vu with
      | error e0 => simp [DetailAPI.GET, hu, hb, hm] at h
      | ok vok =>
        cases vok with
        | false => simp [DetailAPI.GET, hu, hb, hm] at h
        | true =>
          have hdt : (DetailAPI.detailTail id src keys fd c).status = 200 := by
            simpa [DetailAPI.GET, hu, hb, hm] using h
          have he := DetailAPI.detailTail_200 id src keys fd c hdt
          constructor
          · simp [DetailAPI.GET, hu, hb, hm, he]
          · exact ⟨a, rfl, hu, by simpa using hb, fun _ => rfl⟩
    · have hdt : (DetailAPI.detailTail id src keys fd c).status = 200 := by
        simpa [DetailAPI.GET, hu, hb, hm] using h
      have he := DetailAPI.detailTail_200 id src keys fd c hdt
      constructor
      · simp [DetailAPI.GET, hu, hb, hm, he]
      · refine ⟨a, rfl, hu, by simpa using hb, ?_⟩
        intro hmode
        exfalso
        apply hm
        rcases hmode with h' | h' | h' <;> simp [h']

/-- C10 witness: a concrete authorized localstorage-mode request succeeds
with the public cache headers for cache time 300. -/
theorem c10_success_cacheable_witness :
    (DetailAPI.GET (some ⟨some "alice", none, none⟩) (some []) ⟨some "pw", none⟩
      (Except.ok true) (some "v1") (some "key1") ["key1"] (Except.ok ())
      300).headers = DetailAPI.cacheHeaders 300 ∧
    ∃ a, (some ⟨some "alice", none, none⟩ : Option AuthInfo) = some a ∧
      truthyStr a.username = true ∧
      bannedIn (some []) (a.username.getD "") = false ∧
      ((resolveStorageType ⟨some "pw", none⟩ = "d1" ∨
        resolveStorageType ⟨some "pw", none⟩ = "redis" ∨
        resolveStorageType ⟨some "pw", none⟩ = "upstash") →
        (Except.ok true : Except Unit Bool) = Except.ok true) :=
  c10_success_cacheable (some ⟨some "alice", none, none⟩) (some []) ⟨some "pw", none⟩
    (Except.ok true) (some "v1") (some "key1") ["key1"] (Except.ok ()) 300
    (by decide) (by decide)

end Baotuo
